import Mathlib

/-
  Verification of the line-item aggregation and logistics-estimation engine of
  the Presupuesto_Stock_Checker repository (src/streamlit_app.py).

  Shallow embedding conventions:
  - Python floats are modelled as exact rationals (ℚ); Python `round(x, n)`
    is modelled as exact decimal round-half-to-even (`pyRound`).
  - Nullable values (Python None / pandas NaN after numeric coercion) are
    modelled as `Option ℚ` / `Option String`.
  - pandas `Series.sum(min_count=1)` is modelled by `sumMinCount1`.
  - A raised Python exception is modelled by `Except.error`.
-/

/-- Python `round(x, n)`: round-half-to-even of `x * 10^n`, as an integer. -/
def roundHalfEven (x : ℚ) : ℤ :=
  let f := Int.floor x
  let r := x - f
  if r < 1/2 then f
  else if 1/2 < r then f + 1
  else if 2 ∣ f then f else f + 1

/-- Python `round(x, n)` on exact rationals (decimal round-half-to-even). -/
def pyRound (x : ℚ) (n : ℕ) : ℚ := (roundHalfEven (x * 10 ^ n) : ℚ) / 10 ^ n

/-- Python `str.lower()`, applied characterwise. -/
def pyLower (s : String) : String := String.mk (s.data.map Char.toLower)

/-- A string that is empty or consists only of whitespace. -/
def blankStr (s : String) : Bool := s.data.all Char.isWhitespace

/-- Python truthiness of an optional string: `None` and `""` are falsy. -/
def pyTruthyStr : Option String → Bool
  | none => false
  | some s => s ≠ ""

/-- pandas `Series.sum(min_count=1)` over a column of nullable rationals:
`none` (NaN) iff every entry is null, otherwise the sum with nulls skipped. -/
def sumMinCount1 (vals : List (Option ℚ)) : Option ℚ :=
  if vals.all Option.isNone then none
  else some ((vals.map (fun v => v.getD 0)).sum)

/-- The `0 if pd.isna(x) else x` step (src lines 162-165). -/
def fillna0 (v : Option ℚ) : ℚ := v.getD 0

/-- One document line item (an element of the row's `products` list).
`none` models an absent key or an explicit `null`. -/
structure Item where
  productId : Option String
  idField : Option String
  units : Option ℚ
  weight : Option ℚ
  name : Option String
  description : Option String
  width_cm : Option ℚ
  height_cm : Option ℚ
  depth_cm : Option ℚ

/-- One entry of the product lookup built by `build_product_lookup`
(src lines 59-69): the values stored under the keys `"Product"`, `"SKU"` and
`"Stock Disponible"`, each possibly `None`. The `"Attributes"` entry is kept
out of this record because the attribute-parsing logic is elided in the
source (placeholder comment at src line 95). -/
structure CatalogInfo where
  productName : Option String
  sku : Option String
  stock : Option ℚ

/-- The value held by the `Stock Disponible` cell of a data row: a number
(resolved product with a numeric stock), the empty string (unresolved
product, src line 103), or Python `None` (resolved product whose catalog
entry has no stock figure). -/
inductive StockCell where
  | num (q : ℚ)
  | blank
  | pynull
deriving DecidableEq

/-- `isinstance(stock, (int, float))` together with the stock value. -/
def stockNum : StockCell → Option ℚ
  | .num q => some q
  | _ => none

/-- Volume of a line (src lines 108-114): `round(w*h*d/1_000_000, 5)` when
all three dimension fields of the item are present, else `None`. -/
def volumeOf (it : Item) : Option ℚ :=
  match it.width_cm, it.height_cm, it.depth_cm with
  | some w, some h, some d => some (pyRound (w * h * d / 1000000) 5)
  | _, _, _ => none

/-- The pallet summary (src lines 306-308): `pw = round(W/1400, 3)`,
`pv = round(V/2, 3)`, `pallets = max(1, ceil(max(pw, pv)))`. -/
structure PalletSummary where
  palletsByWeight : ℚ
  palletsByVolume : ℚ
  palletsNeeded : ℤ

/-- Compute the pallet summary from the total weight and total volume,
as src lines 306-308 do. -/
def palletSummary (totalWeight totalVolume : ℚ) : PalletSummary :=
  let pw := pyRound (totalWeight / 1400) 3
  let pv := pyRound (totalVolume / 2) 3
  { palletsByWeight := pw
    palletsByVolume := pv
    palletsNeeded := max 1 (Int.ceil (max pw pv)) }

/-- Claim C5: a line's `volumeM3` is non-null iff all three dimensions
(width, height, depth) are present, and in that case it equals
`round(width*height*depth/1_000_000, 5)`; missing dimensions are never
imputed (the volume is simply null). -/
theorem volumeOf_spec (it : Item) :
    ((volumeOf it).isSome ↔
      it.width_cm.isSome ∧ it.height_cm.isSome ∧ it.depth_cm.isSome) ∧
    (∀ w h d, it.width_cm = some w → it.height_cm = some h →
      it.depth_cm = some d →
      volumeOf it = some (pyRound (w * h * d / 1000000) 5)) := by
  constructor
  · unfold volumeOf
    rcases hw : it.width_cm with _ | w <;>
      rcases hh : it.height_cm with _ | h <;>
        rcases hd : it.depth_cm with _ | d <;> simp
  · intro w h d hw hh hd
    unfold volumeOf
    rw [hw, hh, hd]

/-- Witness for C5 at the spec's Scenario C dimensions (10, 20, 5):
the volume is defined and equals round(1000/1_000_000, 5) = 0.001. -/
theorem volumeOf_spec_witness :
    volumeOf ⟨none, none, none, none, none, none,
        some 10, some 20, some 5⟩ =
      some (pyRound (10 * 20 * 5 / 1000000) 5) ∧
    pyRound ((10 : ℚ) * 20 * 5 / 1000000) 5 = 1/1000 := by
  refine ⟨(volumeOf_spec ⟨none, none, none, none, none, none,
      some 10, some 20, some 5⟩).2 10 20 5 rfl rfl rfl, ?_⟩
  unfold pyRound roundHalfEven
  norm_num [Int.floor_eq_iff]

/-- Claim C6: `palletsByWeight` is the total weight divided by the per-pallet
weight capacity (1400 kg) rounded to 3 decimals, `palletsByVolume` is the
total volume divided by the per-pallet volume capacity (2 m³) rounded to 3
decimals, and `palletsNeeded` is the ceiling of their maximum with a floor
of 1, hence always at least 1. -/
theorem palletSummary_spec (W V : ℚ) :
    (palletSummary W V).palletsByWeight = pyRound (W / 1400) 3 ∧
    (palletSummary W V).palletsByVolume = pyRound (V / 2) 3 ∧
    (palletSummary W V).palletsNeeded =
      max 1 (Int.ceil (max ((palletSummary W V).palletsByWeight)
        ((palletSummary W V).palletsByVolume))) ∧
    1 ≤ (palletSummary W V).palletsNeeded := by
  refine ⟨rfl, rfl, rfl, ?_⟩
  exact le_max_left 1 _

/-- Modelled from the spec: the resolved-line `totalWeightKg`. The source's
attribute parsing that produces a possibly-null net weight is an elided
placeholder (`parsed_net_weight`, src line 98), so the nullable operands
follow the spec's words ("totalWeightKg = netWeightKg × units, rounded to 3
decimal places; null-propagating if either operand is null"); the non-null
branch matches `round(net_w*units, 3)` at src line 126. -/
def totalWeightKg (netW units : Option ℚ) : Option ℚ :=
  match netW, units with
  | some w, some u => some (pyRound (w * u) 3)
  | _, _ => none

/-- Claim C1: `totalWeightKg` equals net weight times units rounded to 3
decimal places when both operands are non-null, and is null whenever the
net weight or the units are null. -/
theorem totalWeightKg_null_propagation (netW units : Option ℚ) :
    (∀ w u, netW = some w → units = some u →
      totalWeightKg netW units = some (pyRound (w * u) 3)) ∧
    ((netW = none ∨ units = none) → totalWeightKg netW units = none) := by
  constructor
  · intro w u hw hu
    rw [hw, hu]
    rfl
  · rintro (h | h)
    · rw [h]; cases units <;> rfl
    · rw [h]; cases netW <;> rfl

/-- Witness for C1 at Scenario A's operands (net weight 2.5, units 4):
the total weight is round(2.5*4, 3) = 10, and a null net weight gives a
null total weight. -/
theorem totalWeightKg_null_propagation_witness :
    totalWeightKg (some (5/2)) (some 4) = some (pyRound ((5/2) * 4) 3) ∧
    pyRound ((5/2 : ℚ) * 4) 3 = 10 ∧
    totalWeightKg none (some 4) = none := by
  refine ⟨(totalWeightKg_null_propagation (some (5/2)) (some 4)).1
      (5/2) 4 rfl rfl, ?_,
    (totalWeightKg_null_propagation none (some 4)).2 (Or.inl rfl)⟩
  unfold pyRound roundHalfEven
  norm_num

/-- Modelled from the spec: category-label resolution. The source's category
detection is an elided placeholder (the comment at src line 134), with the
fixed sentinel string assigned at src line 133; the rule "a special
attribute named Product Line supplies categoryLabel directly; if absent or
blank, default label is a fixed sentinel" follows the spec (section 4.1). -/
def categoryLabel (attrs : List (String × String)) : String :=
  match attrs.find? (fun a => a.fst == "Product Line") with
  | some a => if blankStr a.snd then "Sin línea de productos" else a.snd
  | none => "Sin línea de productos"

/-- Claim C7: the attribute named "Product Line" supplies the category label
directly, and when that attribute is absent or blank the label is the fixed
sentinel "Sin línea de productos". -/
theorem categoryLabel_spec (attrs : List (String × String)) :
    (∀ v, attrs.find? (fun a => a.fst == "Product Line") = some v →
      blankStr v.snd = false → categoryLabel attrs = v.snd) ∧
    (∀ v, attrs.find? (fun a => a.fst == "Product Line") = some v →
      blankStr v.snd = true →
      categoryLabel attrs = "Sin línea de productos") ∧
    (attrs.find? (fun a => a.fst == "Product Line") = none →
      categoryLabel attrs = "Sin línea de productos") := by
  refine ⟨?_, ?_, ?_⟩
  · intro v hv hb
    unfold categoryLabel
    rw [hv]
    simp [hb]
  · intro v hv hb
    unfold categoryLabel
    rw [hv]
    simp [hb]
  · intro hv
    unfold categoryLabel
    rw [hv]

/-- Witness for C7: a present non-blank "Product Line" attribute supplies
the label, while an empty attribute list yields the sentinel. -/
theorem categoryLabel_spec_witness :
    categoryLabel [("Product Line", "Boxes")] = "Boxes" ∧
    categoryLabel [] = "Sin línea de productos" := by
  exact ⟨(categoryLabel_spec [("Product Line", "Boxes")]).1
      ("Product Line", "Boxes") rfl (by decide),
    (categoryLabel_spec []).2.2 rfl⟩

/-- The boolean test `isinstance(stock, (int, float)) and stock >= units`
of src line 117. -/
def stockGeB (stock : StockCell) (units : ℚ) : Bool :=
  match stockNum stock with
  | some q => decide (units ≤ q)
  | none => false

/-- The shortage flag of src line 117: false ("") when the SKU is falsy or
the stock is a number at least the units, true ("STOCK INSUFICIENTE")
otherwise. -/
def insufFlag (sku : Option String) (stock : StockCell) (units : ℚ) : Bool :=
  if !pyTruthyStr sku || stockGeB stock units then false else true

/-- The `Falta` value of src line 118: `0` when the flag is false, else
`abs(stock - units)`; subtracting from a non-numeric stock raises a
TypeError, modelled as `Except.error`. -/
def faltaVal (sku : Option String) (stock : StockCell) (units : ℚ) :
    Except String ℚ :=
  if insufFlag sku stock units = false then Except.ok 0
  else
    match stockNum stock with
    | some q => Except.ok |q - units|
    | none => Except.error "TypeError"

/-- The `Falta` cell of an emitted data row: the computed value when no
exception is raised; the error branch yields no row at all (the exception
aborts the whole build). Used only to compare the emitted cell with the
spec's demanded cell. -/
def rowFaltaCell (sku : Option String) (stock : StockCell) (units : ℚ) :
    Option ℚ :=
  match faltaVal sku stock units with
  | Except.ok q => some q
  | Except.error _ => none

/-- Definition following claim C2's words for the shortfall cell: null when
there is no shortage (sku present and numeric stock below units decide a
shortage), `abs(stock - units)` when there is one. Compared against the
code's cell, which holds 0 instead of null. -/
def shortfallSpecC2 (sku : Option String) (stock : StockCell) (units : ℚ) :
    Option ℚ :=
  if pyTruthyStr sku &&
      (match stockNum stock with
        | some q => decide (q < units)
        | none => false) then
    (stockNum stock).map (fun q => |q - units|)
  else none

/-- Counterexample to claim C2 as stated: with SKU "S1", stock 10 and
units 4 there is no shortage, and the code's emitted `Falta` cell is the
number 0, not the null/empty cell the claim demands. -/
theorem shortage_cex :
    insufFlag (some "S1") (StockCell.num 10) 4 = false ∧
    rowFaltaCell (some "S1") (StockCell.num 10) 4 = some 0 ∧
    shortfallSpecC2 (some "S1") (StockCell.num 10) 4 = none ∧
    rowFaltaCell (some "S1") (StockCell.num 10) 4 ≠
      shortfallSpecC2 (some "S1") (StockCell.num 10) 4 := by
  have h1 : insufFlag (some "S1") (StockCell.num 10) 4 = false := by
    unfold insufFlag stockGeB stockNum
    norm_num
  have h2 : rowFaltaCell (some "S1") (StockCell.num 10) 4 = some 0 := by
    unfold rowFaltaCell faltaVal
    rw [h1]
    simp
  have h3 : shortfallSpecC2 (some "S1") (StockCell.num 10) 4 = none := by
    unfold shortfallSpecC2 stockNum
    norm_num
  refine ⟨h1, h2, h3, ?_⟩
  rw [h2, h3]
  simp

/-- Claim C2 (amended): the shortage flag holds iff the SKU is present
(truthy) and the stock is not a number at least the units — in particular,
for a numeric stock, iff stock < units, and a line with no SKU is never
flagged; when the flag is false the `Falta` value is 0 (not null), and when
it is true with numeric stock it is `abs(stock - units)` (a non-numeric
stock raises a TypeError instead). -/
theorem shortage_amended (sku : Option String) (stock : StockCell)
    (units : ℚ) :
    (insufFlag sku stock units = true ↔
      (pyTruthyStr sku = true ∧ ∀ q, stockNum stock = some q → q < units)) ∧
    (insufFlag sku stock units = false →
      faltaVal sku stock units = Except.ok 0) ∧
    (∀ q, stockNum stock = some q → insufFlag sku stock units = true →
      faltaVal sku stock units = Except.ok |q - units|) ∧
    (pyTruthyStr sku = false → insufFlag sku stock units = false) := by
  refine ⟨?_, ?_, ?_, ?_⟩
  · rcases stock with q | _ | _ <;> cases h : pyTruthyStr sku <;>
      simp [insufFlag, stockGeB, stockNum, h, not_le]
  · intro h
    unfold faltaVal
    rw [h]
    simp
  · intro q hq hflag
    unfold faltaVal
    rw [hflag, hq]
    simp
  · intro h
    unfold insufFlag
    rw [h]
    rfl

/-- Witness for C2 (amended) at Scenario B's values (SKU "S1", stock 10,
units 20): the line is flagged and the shortfall is 10. -/
theorem shortage_amended_witness :
    insufFlag (some "S1") (StockCell.num 10) 20 = true ∧
    faltaVal (some "S1") (StockCell.num 10) 20 = Except.ok 10 := by
  have h := shortage_amended (some "S1") (StockCell.num 10) 20
  have h1 : insufFlag (some "S1") (StockCell.num 10) 20 = true := by
    refine h.1.mpr ⟨by decide, ?_⟩
    intro q hq
    have hq10 : (10 : ℚ) = q := Option.some.inj hq
    rw [← hq10]
    norm_num
  have h2 := h.2.2.1 10 rfl h1
  have habs : |(10 : ℚ) - 20| = 10 := by norm_num
  rw [habs] at h2
  exact ⟨h1, h2⟩

/-- The value of a document row's `products` field before the coercion
`items = row.get('products') or []` of src line 80: a list of items, a
string, a number, or Python `None` (also standing for an absent key). -/
inductive PyField where
  | pylist (items : List Item)
  | pystr (s : String)
  | pynum (q : ℚ)
  | pynone

/-- Python truthiness of a `products` field value. -/
def truthyField : PyField → Bool
  | .pylist l => !l.isEmpty
  | .pystr s => decide (s ≠ "")
  | .pynum q => decide (q ≠ 0)
  | .pynone => false

/-- Whether the field value is a Python list. -/
def isListField : PyField → Bool
  | .pylist _ => true
  | .pystr _ => false
  | .pynum _ => false
  | .pynone => false

/-- Src lines 80-82: `items = row.get('products') or []` followed by
`if not isinstance(items, list): raise TypeError(...)`. A falsy field is
replaced by the empty list before the type check; a truthy non-list raises. -/
def getItems (f : PyField) : Except String (List Item) :=
  let items := if truthyField f then f else PyField.pylist []
  match items with
  | .pylist l => Except.ok l
  | _ => Except.error "products must be a list"

/-- Whether `getItems` raises. -/
def raisesGetItems (f : PyField) : Bool :=
  match getItems f with
  | Except.ok _ => false
  | Except.error _ => true

/-- Counterexample to claim C9 as stated: the empty string is not a list,
yet building the report does not raise — the falsy field is coerced to the
empty item list and processing succeeds. -/
theorem getItems_cex :
    isListField (PyField.pystr "") = false ∧
    getItems (PyField.pystr "") = Except.ok [] := by
  exact ⟨rfl, rfl⟩

/-- Claim C9 (amended): building the report raises a TypeError exactly when
the row's `products` field is truthy (non-empty, non-null, non-zero) and is
not a list; falsy values of any type — None, "", 0, the empty list — are
coerced to an empty item list and do not raise. -/
theorem getItems_raises_iff (f : PyField) :
    raisesGetItems f = (truthyField f && !isListField f) := by
  rcases f with l | s | q | _
  · cases hl : l.isEmpty <;>
      simp [raisesGetItems, getItems, truthyField, isListField, hl]
  · by_cases hs : s = "" <;>
      simp [raisesGetItems, getItems, truthyField, isListField, hs]
  · by_cases hq : q = 0 <;>
      simp [raisesGetItems, getItems, truthyField, isListField, hq]
  · rfl

/-- One member data row restricted to the four summed numeric columns, as
the subtotal computation sees it after `pd.to_numeric(..., errors="coerce")`
(src lines 155-157): Units, Total Weight (kg), Volume (m³), Falta. -/
structure AggRow where
  units : Option ℚ
  totalWeight : Option ℚ
  volume : Option ℚ
  falta : Option ℚ

/-- Per-group subtotal of one column (src lines 158-181): the column's
`sum(min_count=1)`, with a NaN result replaced by 0, rounded to `dp`
decimals. -/
def subCol (col : AggRow → Option ℚ) (dp : ℕ) (g : List AggRow) : ℚ :=
  pyRound (fillna0 (sumMinCount1 (g.map col))) dp

/-- The `Subtotal > Units` value of a group (rounded to 1 decimal). -/
def subUnits (g : List AggRow) : ℚ := subCol (fun r => r.units) 1 g

/-- The `Subtotal > Total Weight (kg)` value of a group (2 decimals). -/
def subWeight (g : List AggRow) : ℚ := subCol (fun r => r.totalWeight) 2 g

/-- The `Subtotal > Volume (m³)` value of a group (5 decimals). -/
def subVolume (g : List AggRow) : ℚ := subCol (fun r => r.volume) 5 g

/-- The `Subtotal > Falta` value of a group (0 decimals). -/
def subFalta (g : List AggRow) : ℚ := subCol (fun r => r.falta) 0 g

/-- Definition following claim C3's words for the volume subtotal: the
null-aware sum — null iff every member value is null — rounded to 5
decimals. Compared against the code's subtotal, which replaces a null sum
by 0 before rounding. -/
def subVolumeSpecC3 (g : List AggRow) : Option ℚ :=
  (sumMinCount1 (g.map (fun r => r.volume))).map (fun s => pyRound s 5)

theorem sum_map_getD_of_all_none (vals : List (Option ℚ))
    (h : vals.all Option.isNone = true) :
    (vals.map (fun v => v.getD 0)).sum = 0 := by
  induction vals with
  | nil => simp
  | cons a l ih =>
    simp only [List.all_cons, Bool.and_eq_true] at h
    rcases a with _ | q
    · simp [ih h.2]
    · simp [Option.isNone] at h

theorem fillna0_sumMinCount1 (vals : List (Option ℚ)) :
    fillna0 (sumMinCount1 vals) = (vals.map (fun v => v.getD 0)).sum := by
  unfold sumMinCount1 fillna0
  split_ifs with h
  · simp [sum_map_getD_of_all_none vals h]
  · rfl

theorem subCol_eq (col : AggRow → Option ℚ) (dp : ℕ) (g : List AggRow) :
    subCol col dp g = pyRound ((g.map (fun r => (col r).getD 0)).sum) dp := by
  unfold subCol
  rw [fillna0_sumMinCount1]
  congr 1
  rw [List.map_map]
  rfl

/-- Claim C3 (amended): each of the four group subtotals equals the sum of
the member column values with nulls counted as 0 — producing 0, not null,
when every member value is null — rounded to 1 (units), 2 (weight), 5
(volume) and 0 (shortfall) decimal places respectively. -/
theorem subtotal_amended (g : List AggRow) :
    subUnits g = pyRound ((g.map (fun r => r.units.getD 0)).sum) 1 ∧
    subWeight g = pyRound ((g.map (fun r => r.totalWeight.getD 0)).sum) 2 ∧
    subVolume g = pyRound ((g.map (fun r => r.volume.getD 0)).sum) 5 ∧
    subFalta g = pyRound ((g.map (fun r => r.falta.getD 0)).sum) 0 :=
  ⟨subCol_eq (fun r => r.units) 1 g, subCol_eq (fun r => r.totalWeight) 2 g,
    subCol_eq (fun r => r.volume) 5 g, subCol_eq (fun r => r.falta) 0 g⟩

/-- A member row whose volume is null. -/
def cexRowC3 : AggRow :=
  { units := some 1, totalWeight := some 1, volume := none, falta := some 0 }

/-- Counterexample to claim C3 as stated: in a group whose only member has a
null volume, every member volume is null, so the claim demands a null
subtotal; the code's subtotal is the number 0 instead. -/
theorem subtotal_cex :
    subVolume [cexRowC3] = 0 ∧
    subVolumeSpecC3 [cexRowC3] = none ∧
    some (subVolume [cexRowC3]) ≠ subVolumeSpecC3 [cexRowC3] := by
  have h1 : subVolume [cexRowC3] = 0 := by
    unfold subVolume subCol cexRowC3 sumMinCount1 fillna0
    simp
    unfold pyRound roundHalfEven
    norm_num
  have h2 : subVolumeSpecC3 [cexRowC3] = none := rfl
  refine ⟨h1, h2, ?_⟩
  rw [h1, h2]
  simp

/-- The cells contributed by one group's block to a `Subtotal >` column of
the final frame (src lines 140-181, 241-242): a null header cell, a null
cell per member row, then the group's subtotal value. -/
def groupCells (col : AggRow → Option ℚ) (dp : ℕ) (g : List AggRow) :
    List (Option ℚ) :=
  (none :: g.map (fun _ => (none : Option ℚ))) ++ [some (subCol col dp g)]

/-- The grand-total value of a `Subtotal >` column (src lines 244-259):
`sum(min_count=1)` over the whole column of the assembled frame. -/
def grandCol (col : AggRow → Option ℚ) (dp : ℕ)
    (groups : List (List AggRow)) : Option ℚ :=
  sumMinCount1 ((groups.map (groupCells col dp)).flatten)

theorem sum_map_zero (l : List AggRow) :
    (l.map (fun _ => (0 : ℚ))).sum = 0 := by
  induction l with
  | nil => simp
  | cons a l ih => simp [ih]

theorem groupCells_getD_sum (col : AggRow → Option ℚ) (dp : ℕ)
    (g : List AggRow) :
    ((groupCells col dp g).map (fun v => v.getD 0)).sum = subCol col dp g := by
  unfold groupCells
  rw [List.map_append, List.sum_append]
  simp [List.map_map, Function.comp, sum_map_zero]

theorem join_getD_sum (col : AggRow → Option ℚ) (dp : ℕ)
    (groups : List (List AggRow)) :
    (((groups.map (groupCells col dp)).flatten).map (fun v => v.getD 0)).sum =
      (groups.map (subCol col dp)).sum := by
  induction groups with
  | nil => simp
  | cons g gs ih =>
    simp only [List.map_cons, List.flatten_cons, List.map_append,
      List.sum_append, List.sum_cons, ih, groupCells_getD_sum]

theorem grandCol_eq (col : AggRow → Option ℚ) (dp : ℕ)
    (groups : List (List AggRow)) (h : groups ≠ []) :
    grandCol col dp groups = some ((groups.map (subCol col dp)).sum) := by
  rcases groups with _ | ⟨g, gs⟩
  · exact absurd rfl h
  · have hmem : some (subCol col dp g) ∈
        ((g :: gs).map (groupCells col dp)).flatten := by
      refine List.mem_flatten.mpr ⟨groupCells col dp g, ?_, ?_⟩
      · exact List.mem_map_of_mem _ (List.mem_cons_self g gs)
      · unfold groupCells
        simp
    have hall : ¬ ((((g :: gs).map (groupCells col dp)).flatten).all
        Option.isNone = true) := by
      intro hcontra
      have := List.all_eq_true.mp hcontra _ hmem
      simp [Option.isNone] at this
    unfold grandCol sumMinCount1
    rw [if_neg hall, join_getD_sum]

/-- Claim C4 (amended): for every non-empty list of category groups, the
grand-total value of a numeric column is the null-aware sum of the
per-category (rounded) subtotals of that column; because the subtotals are
rounded, this can differ from the null-aware sum of the column over the
member rows. -/
theorem grand_total_amended (col : AggRow → Option ℚ) (dp : ℕ)
    (groups : List (List AggRow)) (h : groups ≠ []) :
    grandCol col dp groups = some ((groups.map (subCol col dp)).sum) :=
  grandCol_eq col dp groups h

/-- A member row used by the C4 witness. -/
def wRowC4 : AggRow :=
  { units := some 2, totalWeight := none, volume := none, falta := none }

/-- Witness for C4 (amended) on a single one-member group: the grand total
of the units column is the group's subtotal, 2. -/
theorem grand_total_amended_witness :
    grandCol (fun r => r.units) 1 [[wRowC4]] =
      some ((([[wRowC4]] : List (List AggRow)).map
        (subCol (fun r => r.units) 1)).sum) ∧
    (([[wRowC4]] : List (List AggRow)).map
        (subCol (fun r => r.units) 1)).sum = 2 := by
  refine ⟨grand_total_amended (fun r => r.units) 1 [[wRowC4]] (by simp), ?_⟩
  unfold subCol wRowC4 sumMinCount1 fillna0
  simp
  unfold pyRound roundHalfEven
  norm_num

/-- A member row whose total weight is 0.004 kg. -/
def cexRowC4 : AggRow :=
  { units := some 1, totalWeight := some (1/250), volume := none,
    falta := some 0 }

/-- A single category with two such member rows. -/
def cexGroupsC4 : List (List AggRow) := [[cexRowC4, cexRowC4]]

/-- Counterexample to claim C4 as stated: with one category holding two
rows of weight 0.004 kg, the member-row null-aware sum is 0.008, but the
subtotal is rounded to 2 decimals (0.01), so the grand total is 0.01 and
the claimed equality with the member-row sum fails. -/
theorem grand_total_cex :
    grandCol (fun r => r.totalWeight) 2 cexGroupsC4 = some (1/100) ∧
    sumMinCount1 ((cexGroupsC4.flatten).map (fun r => r.totalWeight)) =
      some (1/125) ∧
    grandCol (fun r => r.totalWeight) 2 cexGroupsC4 ≠
      sumMinCount1 ((cexGroupsC4.flatten).map (fun r => r.totalWeight)) := by
  have hsub : subCol (fun r => r.totalWeight) 2 [cexRowC4, cexRowC4]
      = 1/100 := by
    unfold subCol cexRowC4 sumMinCount1 fillna0
    simp
    unfold pyRound roundHalfEven
    norm_num [Int.floor_eq_iff]
  have h1 : grandCol (fun r => r.totalWeight) 2 cexGroupsC4
      = some (1/100) := by
    rw [grandCol_eq (fun r => r.totalWeight) 2 cexGroupsC4
      (by unfold cexGroupsC4; simp)]
    unfold cexGroupsC4
    simp [hsub]
  have h2 : sumMinCount1 ((cexGroupsC4.flatten).map (fun r => r.totalWeight))
      = some (1/125) := by
    unfold cexGroupsC4 cexRowC4 sumMinCount1
    simp
    norm_num
  refine ⟨h1, h2, ?_⟩
  rw [h1, h2]
  simp

/-- `get_row_index_by_docnumber` (src lines 72-75): the position of the
first document whose lowercased `docNumber` equals the lowercased query;
`None` when no document matches. -/
def get_row_index_by_docnumber : List String → String → Option ℕ
  | [], _ => none
  | d :: rest, q =>
    if pyLower d = pyLower q then some 0
    else (get_row_index_by_docnumber rest q).map (fun i => i + 1)

/-- Claim C8: document lookup is a case-insensitive exact match on
`docNumber` — it returns `None` iff no document matches, and when it
returns an index, that document matches and every earlier one does not
(first match wins). -/
theorem docnumber_lookup_spec (docs : List String) (q : String) :
    (get_row_index_by_docnumber docs q = none ↔
      ∀ d ∈ docs, pyLower d ≠ pyLower q) ∧
    (∀ i, get_row_index_by_docnumber docs q = some i →
      ∃ h : i < docs.length,
        pyLower (docs.get ⟨i, h⟩) = pyLower q ∧
        ∀ j, ∀ hj : j < docs.length, j < i →
          pyLower (docs.get ⟨j, hj⟩) ≠ pyLower q) := by
  induction docs with
  | nil =>
    constructor
    · simp [get_row_index_by_docnumber]
    · intro i h
      simp [get_row_index_by_docnumber] at h
  | cons d rest ih =>
    by_cases hd : pyLower d = pyLower q
    · have hl : get_row_index_by_docnumber (d :: rest) q = some 0 := by
        simp [get_row_index_by_docnumber, hd]
      constructor
      · constructor
        · intro h
          rw [hl] at h
          exact Option.noConfusion h
        · intro hall
          exact absurd hd (hall d (List.mem_cons_self d rest))
      · intro i hi
        rw [hl] at hi
        have hi0 : i = 0 := (Option.some.inj hi).symm
        subst hi0
        refine ⟨by simp, by simpa using hd, ?_⟩
        intro j hj hj0
        omega
    · have hl : get_row_index_by_docnumber (d :: rest) q =
          (get_row_index_by_docnumber rest q).map (fun i => i + 1) := by
        simp [get_row_index_by_docnumber, hd]
      constructor
      · rw [hl]
        constructor
        · intro h x hx
          have hrest : get_row_index_by_docnumber rest q = none := by
            rcases hmm : get_row_index_by_docnumber rest q with _ | k
            · rfl
            · rw [hmm] at h
              exact Option.noConfusion h
          rcases List.mem_cons.mp hx with rfl | hx2
          · exact hd
          · exact (ih.1.mp hrest) x hx2
        · intro hall
          have hrest : get_row_index_by_docnumber rest q = none :=
            ih.1.mpr (fun x hx => hall x (List.mem_cons_of_mem d hx))
          rw [hrest]
          rfl
      · intro i hi
        rw [hl] at hi
        rcases hmm : get_row_index_by_docnumber rest q with _ | k
        · rw [hmm] at hi
          exact Option.noConfusion hi
        · rw [hmm] at hi
          have hik : i = k + 1 := (Option.some.inj hi).symm
          subst hik
          obtain ⟨hk, hkeq, hkmin⟩ := ih.2 k hmm
          refine ⟨by simpa using Nat.succ_lt_succ hk, by simpa using hkeq, ?_⟩
          intro j hj hjk
          rcases j with _ | j2
          · simpa using hd
          · have hj2 : j2 < rest.length := by simpa using hj
            have := hkmin j2 hj2 (by omega)
            simpa using this

/-- Witness for C8: in the fetched list ["XY", "ABC-1"], the query "abc-1"
resolves (case-insensitively) to index 1, the document "ABC-1". -/
theorem docnumber_lookup_spec_witness :
    get_row_index_by_docnumber ["XY", "ABC-1"] "abc-1" = some 1 ∧
    pyLower "ABC-1" = pyLower "abc-1" := by
  have h : get_row_index_by_docnumber ["XY", "ABC-1"] "abc-1" = some 1 := by
    decide
  obtain ⟨hlt, heq, _⟩ :=
    (docnumber_lookup_spec ["XY", "ABC-1"] "abc-1").2 1 h
  exact ⟨h, by simpa using heq⟩

/-- Python `a or b or ... or default` over optional strings (`None` and
`""` are falsy), as used for the product name at src line 106. -/
def firstTruthy : List (Option String) → String → String
  | [], dflt => dflt
  | x :: rest, dflt =>
    if pyTruthyStr x then x.getD "" else firstTruthy rest dflt

/-- Src line 88: `item.get("productId")` if it is not None, else
`item.get("id")`. -/
def itemPid (it : Item) : Option String := it.productId <|> it.idField

/-- One emitted data row (the dict built at src lines 121-131). -/
structure RowData where
  product : String
  sku : Option String
  unitsVal : ℚ
  netW : ℚ
  totalW : ℚ
  volume : Option ℚ
  stock : StockCell
  insuf : Bool
  falta : Except String ℚ

/-- The per-item enrichment of src lines 88-131. `lookup` is the catalog
lookup built by `build_product_lookup`; `parseNetW` stands for the elided
attribute parsing of the resolved branch (placeholder comments at src
lines 95-98), which the fallback branch never uses. In the fallback branch
`net_w = item.get("weight") or 0.0` equals `it.weight.getD 0` because the
only falsy numbers are an absent weight and 0. -/
def enrichItem (lookup : String → Option CatalogInfo)
    (parseNetW : CatalogInfo → ℚ) (it : Item) : RowData :=
  let units := it.units.getD 0
  match (itemPid it).bind lookup with
  | some info =>
    let sku := info.sku
    let stock := match info.stock with
      | some q => StockCell.num q
      | none => StockCell.pynull
    let netw := parseNetW info
    { product := firstTruthy [info.productName, it.name, it.description]
        "Sin descripción"
      sku := sku
      unitsVal := units
      netW := netw
      totalW := pyRound (netw * units) 3
      volume := volumeOf it
      stock := stock
      insuf := insufFlag sku stock units
      falta := faltaVal sku stock units }
  | none =>
    let sku := some ""
    let stock := StockCell.blank
    let netw := it.weight.getD 0
    { product := firstTruthy [none, it.name, it.description]
        "Sin descripción"
      sku := sku
      unitsVal := units
      netW := netw
      totalW := pyRound (netw * units) 3
      volume := volumeOf it
      stock := stock
      insuf := insufFlag sku stock units
      falta := faltaVal sku stock units }

/-- The per-item loop of src lines 86-135: one emitted data row per item. -/
def dataRows (lookup : String → Option CatalogInfo)
    (parseNetW : CatalogInfo → ℚ) (items : List Item) : List RowData :=
  items.map (enrichItem lookup parseNetW)

theorem firstTruthy_cons_false (x : Option String)
    (rest : List (Option String)) (dflt : String)
    (hx : pyTruthyStr x = false) :
    firstTruthy (x :: rest) dflt = firstTruthy rest dflt := by
  simp only [firstTruthy]
  rw [hx]
  simp

/-- Claim C10: a line whose product identifier is absent or not found in
the catalog still yields exactly one data row (lines are never skipped):
its SKU is the empty string, its stock cell is the empty string, its net
weight falls back to the item's own weight field and then to 0, its product
name falls back to the item's name, then its description, then the fixed
placeholder "Sin descripción", and the row is never flagged as a shortage
(its Falta value is 0). -/
theorem unresolved_line_row (lookup : String → Option CatalogInfo)
    (parseNetW : CatalogInfo → ℚ) (it : Item)
    (h : (itemPid it).bind lookup = none) :
    (enrichItem lookup parseNetW it).sku = some "" ∧
    (enrichItem lookup parseNetW it).stock = StockCell.blank ∧
    (enrichItem lookup parseNetW it).netW = it.weight.getD 0 ∧
    (enrichItem lookup parseNetW it).product =
      firstTruthy [it.name, it.description] "Sin descripción" ∧
    (∀ s, it.name = some s → s ≠ "" →
      (enrichItem lookup parseNetW it).product = s) ∧
    (pyTruthyStr it.name = false → ∀ s, it.description = some s → s ≠ "" →
      (enrichItem lookup parseNetW it).product = s) ∧
    (pyTruthyStr it.name = false → pyTruthyStr it.description = false →
      (enrichItem lookup parseNetW it).product = "Sin descripción") ∧
    (enrichItem lookup parseNetW it).insuf = false ∧
    (enrichItem lookup parseNetW it).falta = Except.ok 0 ∧
    (∀ items : List Item,
      (dataRows lookup parseNetW items).length = items.length) := by
  have he : enrichItem lookup parseNetW it =
      { product := firstTruthy [none, it.name, it.description]
          "Sin descripción"
        sku := some ""
        unitsVal := it.units.getD 0
        netW := it.weight.getD 0
        totalW := pyRound (it.weight.getD 0 * it.units.getD 0) 3
        volume := volumeOf it
        stock := StockCell.blank
        insuf := insufFlag (some "") StockCell.blank (it.units.getD 0)
        falta := faltaVal (some "") StockCell.blank (it.units.getD 0) } := by
    unfold enrichItem
    rw [h]
  have hfirst : firstTruthy [none, it.name, it.description]
      "Sin descripción" = firstTruthy [it.name, it.description]
      "Sin descripción" := by
    simp [firstTruthy, pyTruthyStr]
  have hins : insufFlag (some "") StockCell.blank (it.units.getD 0)
      = false := rfl
  have hfal : faltaVal (some "") StockCell.blank (it.units.getD 0)
      = Except.ok 0 := rfl
  refine ⟨by rw [he], by rw [he], by rw [he], ?_, ?_, ?_, ?_,
    by rw [he]; exact hins, by rw [he]; exact hfal, ?_⟩
  · rw [he]
    exact hfirst
  · intro s hs hs0
    rw [he]
    show firstTruthy [none, it.name, it.description] "Sin descripción" = s
    rw [hfirst, hs]
    simp [firstTruthy, pyTruthyStr, hs0]
  · intro hn s hs hs0
    rw [he]
    show firstTruthy [none, it.name, it.description] "Sin descripción" = s
    rw [hfirst, firstTruthy_cons_false it.name _ _ hn, hs]
    simp [firstTruthy, pyTruthyStr, hs0]
  · intro hn hdsc
    rw [he]
    show firstTruthy [none, it.name, it.description] "Sin descripción"
      = "Sin descripción"
    rw [hfirst]
    simp [firstTruthy, hn, hdsc]
  · intro items
    simp [dataRows]

/-- A line item referencing the unknown product "P9", with 3 units and its
own weight field 3.5. -/
def itW : Item :=
  ⟨some "P9", none, some 3, some (7/2), none, none, none, none, none⟩

/-- Witness for C10 on an empty catalog: the row for `itW` is emitted with
empty SKU, empty stock, the item's own weight 3.5, the placeholder name,
and no shortage flag. -/
theorem unresolved_line_row_witness :
    (enrichItem (fun _ => none) (fun _ => 0) itW).sku = some "" ∧
    (enrichItem (fun _ => none) (fun _ => 0) itW).stock = StockCell.blank ∧
    (enrichItem (fun _ => none) (fun _ => 0) itW).netW = 7/2 ∧
    (enrichItem (fun _ => none) (fun _ => 0) itW).product =
      "Sin descripción" ∧
    (enrichItem (fun _ => none) (fun _ => 0) itW).insuf = false ∧
    (dataRows (fun _ => none) (fun _ => 0) [itW]).length = 1 := by
  have h := unresolved_line_row (fun _ => none) (fun _ => 0) itW rfl
  refine ⟨h.1, h.2.1, ?_, ?_, h.2.2.2.2.2.2.2.1, h.2.2.2.2.2.2.2.2.2 [itW]⟩
  · rw [h.2.2.1]
    rfl
  · exact h.2.2.2.2.2.2.1 rfl rfl
